import Mathlib

/-!
# Verification of `novatel_node.cpp` (novatelROS)

A shallow embedding of the fusion / classification / table-update logic of
`src/novatel_node.cpp`. C++ `double` values are modelled as exact rationals
(`ℚ`); fixed-size C arrays (the 36-entry row-major covariance matrices, the
per-satellite ephemeris arrays, the per-channel range arrays) are modelled as
total functions `ℕ → ℚ` written with `Function.update`, mirroring each
`a[i] = v;` assignment of the source in order. External pure library calls
(`cos`, `sin`, `tf::createQuaternionMsgFromYaw`, `gps_.ConvertLLaUTM`) are
parameters of the embedding, since no claim depends on their values.
-/

namespace NovatelROS

/-- The constant `M_PI` as used by the source (C literal `3.14159265358979323846`),
modelled as the exact rational denoted by the literal. -/
def m_pi : ℚ := 3.14159265358979323846

/-- Source constant `degrees_to_radians = M_PI / 180.0` (novatel_node.cpp:61). -/
def degrees_to_radians : ℚ := m_pi / 180

/-- Source constant `degrees_square_to_radians_square = degrees_to_radians*degrees_to_radians`
(novatel_node.cpp:62). -/
def degrees_square_to_radians_square : ℚ := degrees_to_radians * degrees_to_radians

/-- Source constant `sigma_v = 0.05` — velocity std dev in m/s (novatel_node.cpp:64). -/
def sigma_v : ℚ := 0.05

/-- The constant `DBL_MAX` from `<cfloat>`: the largest finite IEEE-754 double,
(2 - 2⁻⁵²)·2¹⁰²³ = 2¹⁰²⁴ - 2⁹⁷¹, as an exact rational. -/
def DBL_MAX : ℚ := 2 ^ 1024 - 2 ^ 971

/-- Modelled from the spec: the receiver position-type codes live in the
external novatel driver header (`novatel.h`), which is not part of this
repository; the numeric values follow the NovAtel OEM `PositionType`
enumeration. Only `NONE = 0` and pairwise distinctness of the codes are used
by the handlers. -/
def NONE : ℕ := 0

def FIXEDPOS : ℕ := 1
def FIXEDHEIGHT : ℕ := 2
def FLOATCONV : ℕ := 4
def WIDELANE : ℕ := 5
def NARROWLANE : ℕ := 6
def DOPPLER_VELOCITY : ℕ := 8
def SINGLE : ℕ := 16
def PSRDIFF : ℕ := 17
def WAAS : ℕ := 18
def PROPOGATED : ℕ := 19
def OMNISTAR : ℕ := 20
def L1_FLOAT : ℕ := 32
def IONOFREE_FLOAT : ℕ := 33
def NARROW_FLOAT : ℕ := 34
def L1_INT : ℕ := 48
def WIDE_INT : ℕ := 49
def NARROW_INT : ℕ := 50
def RTK_DIRECT_INS : ℕ := 51
def INS : ℕ := 52
def INS_PSRSP : ℕ := 53
def INS_PSRDIFF : ℕ := 54
def INS_RTKFLOAT : ℕ := 55
def INS_RTKFIXED : ℕ := 56
def OMNISTAR_HP : ℕ := 64
def OMNISTAR_XP : ℕ := 65
def CDGPS : ℕ := 66

/-- Modelled from the spec: the closed enumeration of recognized receiver
position-type codes (the NovAtel `PositionType` enum in the external driver
header, absent from this repository). Code 3 is a reserved slot of the enum
and not listed. -/
def recognizedPositionTypes : List ℕ :=
  [NONE, FIXEDPOS, FIXEDHEIGHT, FLOATCONV, WIDELANE, NARROWLANE,
   DOPPLER_VELOCITY, SINGLE, PSRDIFF, WAAS, PROPOGATED, OMNISTAR, L1_FLOAT,
   IONOFREE_FLOAT, NARROW_FLOAT, L1_INT, WIDE_INT, NARROW_INT, RTK_DIRECT_INS,
   INS, INS_PSRSP, INS_PSRDIFF, INS_RTKFLOAT, INS_RTKFIXED, OMNISTAR_HP,
   OMNISTAR_XP, CDGPS]

/-- The `sensor_msgs::NavSatStatus::STATUS_*` constants as a closed type. -/
inductive FixStatus where
  | no_fix
  | fix
  | sbas_fix
  | gbas_fix
deriving DecidableEq, Repr

/-- Orientation value of the output message. The ROS quaternion default is the
all-zero quaternion; `tf::createQuaternionMsgFromYaw` and
`tf::createQuaternionMsgFromRollPitchYaw` are external pure conversions,
modelled as constructors carrying their arguments. -/
inductive Orientation where
  | zero
  | fromYaw (yaw : ℚ)
  | fromRollPitchYaw (roll pitch yaw : ℚ)
deriving DecidableEq, Repr

/-- GPS-time header carried by `UtmPosition` and `Velocity`
(`header.gps_week`, `header.gps_millisecs`). -/
structure NovatelHeader where
  gps_week : ℕ
  gps_millisecs : ℕ
deriving DecidableEq, Repr

/-- The fields of `novatel::UtmPosition` read by `BestUtmHandler`. -/
structure UtmPosition where
  header : NovatelHeader
  position_type : ℕ
  signals_used_mask : ℕ
  easting : ℚ
  northing : ℚ
  height : ℚ
  easting_standard_deviation : ℚ
  northing_standard_deviation : ℚ
  height_standard_deviation : ℚ
deriving DecidableEq, Repr

/-- The fields of `novatel::Velocity` read by the handlers; one most recent
instance is cached in `cur_velocity_` by `BestVelocityHandler`. -/
structure Velocity where
  header : NovatelHeader
  position_type : ℕ
  horizontal_speed : ℚ
  vertical_speed : ℚ
  track_over_ground : ℚ
deriving DecidableEq, Repr

/-- The fields of `novatel::InsPositionVelocityAttitudeShort` read by
`InsPvaHandler` (its `gps_week` / `gps_millisecs` sit at top level). -/
structure InsPositionVelocityAttitudeShort where
  gps_week : ℕ
  gps_millisecs : ℕ
  latitude : ℚ
  longitude : ℚ
  height : ℚ
  roll : ℚ
  pitch : ℚ
  azimuth : ℚ
  north_velocity : ℚ
  east_velocity : ℚ
  up_velocity : ℚ
  status : ℕ
deriving DecidableEq, Repr

/-- The fields of `novatel::InsCovarianceShort` read by `InsPvaHandler`; one
most recent instance is cached in `cur_ins_cov_` by `InsCovHandler`. The three
3×3 blocks are row-major 9-element arrays, modelled as `ℕ → ℚ`. -/
structure InsCovarianceShort where
  gps_week : ℕ
  gps_millisecs : ℕ
  position_covariance : ℕ → ℚ
  attitude_covariance : ℕ → ℚ
  velocity_covariance : ℕ → ℚ

/-- The parts of the published `nav_msgs::Odometry` message that the handlers
write. A freshly constructed ROS message is zero-initialized: every numeric
field is `0` and the quaternion is all-zero. -/
structure Odom where
  position_x : ℚ
  position_y : ℚ
  position_z : ℚ
  orientation : Orientation
  twist_linear_x : ℚ
  twist_linear_y : ℚ
  twist_linear_z : ℚ
  pose_covariance : ℕ → ℚ
  twist_covariance : ℕ → ℚ

/-- The fresh local `nav_msgs::Odometry cur_odom_` — zero-initialized. -/
def Odom.init : Odom where
  position_x := 0
  position_y := 0
  position_z := 0
  orientation := .zero
  twist_linear_x := 0
  twist_linear_y := 0
  twist_linear_z := 0
  pose_covariance := fun _ => 0
  twist_covariance := fun _ => 0

/-- The `sat_fix.status.status` classification chain of `BestUtmHandler`
(novatel_node.cpp:99-118), kept branch for branch, including the duplicated
`WIDE_INT` test of the source. -/
def bestUtmStatus (position_type : ℕ) : FixStatus :=
  if position_type = NONE then .no_fix
  else if position_type = WAAS ∨ position_type = OMNISTAR ∨
          position_type = OMNISTAR_HP ∨ position_type = OMNISTAR_XP ∨
          position_type = CDGPS then .sbas_fix
  else if position_type = PSRDIFF ∨ position_type = NARROW_FLOAT ∨
          position_type = WIDE_INT ∨ position_type = WIDE_INT ∨
          position_type = NARROW_INT ∨ position_type = RTK_DIRECT_INS ∨
          position_type = INS_PSRDIFF ∨ position_type = INS_RTKFLOAT ∨
          position_type = INS_RTKFIXED then .gbas_fix
  else .fix

/-- The odometry assembly of `NovatelNode::BestUtmHandler`
(novatel_node.cpp:135-179). `cosF` and `sinF` stand for the C library `cos`
and `sin`; `cur_velocity` is the cached `cur_velocity_` member. Each
`covariance[i] = v;` of the source becomes one `Function.update`, applied in
source order. -/
def BestUtmHandler (cosF sinF : ℚ → ℚ) (cur_velocity : Velocity)
    (pos : UtmPosition) : Odom :=
  let odom1 : Odom :=
    { Odom.init with
      position_x := pos.easting
      position_y := pos.northing
      position_z := pos.height
      pose_covariance :=
        Function.update (Function.update (Function.update (Function.update
          (Function.update Odom.init.pose_covariance
            0 (pos.easting_standard_deviation * pos.easting_standard_deviation))
            7 (pos.northing_standard_deviation * pos.northing_standard_deviation))
            14 (pos.height_standard_deviation * pos.height_standard_deviation))
            21 DBL_MAX)
            28 DBL_MAX }
  if cur_velocity.header.gps_week = pos.header.gps_week ∧
     cur_velocity.header.gps_millisecs = pos.header.gps_millisecs then
    let odom2 : Odom :=
      { odom1 with
        twist_linear_x :=
          cur_velocity.horizontal_speed * cosF cur_velocity.track_over_ground
        twist_linear_y :=
          cur_velocity.horizontal_speed * sinF cur_velocity.track_over_ground
        twist_linear_z := cur_velocity.vertical_speed
        orientation :=
          .fromYaw (cur_velocity.track_over_ground * degrees_to_radians) }
    if NONE < cur_velocity.position_type then
      let heading_std_dev : ℚ := sigma_v / cur_velocity.horizontal_speed
      { odom2 with
        pose_covariance :=
          Function.update odom2.pose_covariance 35
            (heading_std_dev * heading_std_dev)
        twist_covariance :=
          Function.update (Function.update odom2.twist_covariance
            0 (sigma_v * sigma_v))
            7 (sigma_v * sigma_v) }
    else
      { odom2 with
        pose_covariance := Function.update odom2.pose_covariance 35 DBL_MAX
        twist_covariance :=
          Function.update (Function.update odom2.twist_covariance
            0 DBL_MAX)
            7 DBL_MAX }
  else odom1

/-- The guard under which `BestUtmHandler` evaluates the expression
`sigma_v / cur_velocity_.horizontal_speed` (novatel_node.cpp:166): the cached
velocity's epoch matches the fix's and the position type is above `NONE`. The
source applies no further test, in particular none on
`horizontal_speed == 0`. -/
def bestUtmReachesSpeedDivision (cur_velocity : Velocity)
    (pos : UtmPosition) : Bool :=
  decide (cur_velocity.header.gps_week = pos.header.gps_week ∧
    cur_velocity.header.gps_millisecs = pos.header.gps_millisecs)
  && decide (NONE < cur_velocity.position_type)

/-- The odometry assembly of `NovatelNode::InsPvaHandler`
(novatel_node.cpp:190-271). `convertLLaUTM` stands for the external
`gps_.ConvertLLaUTM(lat, lon, &northing, &easting, ...)` projection, as a pure
function `lat lon ↦ (northing, easting)`; `cur_ins_cov` is the cached
`cur_ins_cov_` member. The covariance block copies (novatel_node.cpp:236-264)
become `Function.update` chains in source order. -/
def InsPvaHandler (convertLLaUTM : ℚ → ℚ → ℚ × ℚ)
    (cur_ins_cov : InsCovarianceShort)
    (ins_pva : InsPositionVelocityAttitudeShort) : Odom :=
  let northing : ℚ := (convertLLaUTM ins_pva.latitude ins_pva.longitude).1
  let easting : ℚ := (convertLLaUTM ins_pva.latitude ins_pva.longitude).2
  let odom1 : Odom :=
    { Odom.init with
      position_x := easting
      position_y := northing
      position_z := ins_pva.height
      orientation :=
        .fromRollPitchYaw ins_pva.roll ins_pva.pitch ins_pva.azimuth
      twist_linear_x := ins_pva.east_velocity
      twist_linear_y := ins_pva.north_velocity
      twist_linear_z := ins_pva.up_velocity }
  if cur_ins_cov.gps_week = ins_pva.gps_week ∧
     cur_ins_cov.gps_millisecs = ins_pva.gps_millisecs then
    { odom1 with
      pose_covariance :=
        Function.update (Function.update (Function.update (Function.update
        (Function.update (Function.update (Function.update (Function.update
        (Function.update (Function.update (Function.update (Function.update
        (Function.update (Function.update (Function.update (Function.update
        (Function.update (Function.update odom1.pose_covariance
          0 (cur_ins_cov.position_covariance 0))
          1 (cur_ins_cov.position_covariance 1))
          2 (cur_ins_cov.position_covariance 2))
          6 (cur_ins_cov.position_covariance 3))
          7 (cur_ins_cov.position_covariance 4))
          8 (cur_ins_cov.position_covariance 5))
          12 (cur_ins_cov.position_covariance 6))
          13 (cur_ins_cov.position_covariance 7))
          14 (cur_ins_cov.position_covariance 8))
          21 (cur_ins_cov.attitude_covariance 0 * degrees_square_to_radians_square))
          22 (cur_ins_cov.attitude_covariance 1 * degrees_square_to_radians_square))
          23 (cur_ins_cov.attitude_covariance 2 * degrees_square_to_radians_square))
          27 (cur_ins_cov.attitude_covariance 3 * degrees_square_to_radians_square))
          28 (cur_ins_cov.attitude_covariance 4 * degrees_square_to_radians_square))
          29 (cur_ins_cov.attitude_covariance 5 * degrees_square_to_radians_square))
          33 (cur_ins_cov.attitude_covariance 6 * degrees_square_to_radians_square))
          34 (cur_ins_cov.attitude_covariance 7 * degrees_square_to_radians_square))
          35 (cur_ins_cov.attitude_covariance 8 * degrees_square_to_radians_square)
      twist_covariance :=
        Function.update (Function.update (Function.update (Function.update
        (Function.update (Function.update (Function.update (Function.update
        (Function.update odom1.twist_covariance
          0 (cur_ins_cov.velocity_covariance 0))
          1 (cur_ins_cov.velocity_covariance 1))
          2 (cur_ins_cov.velocity_covariance 2))
          6 (cur_ins_cov.velocity_covariance 3))
          7 (cur_ins_cov.velocity_covariance 4))
          8 (cur_ins_cov.velocity_covariance 5))
          12 (cur_ins_cov.velocity_covariance 6))
          13 (cur_ins_cov.velocity_covariance 7))
          14 (cur_ins_cov.velocity_covariance 8) }
  else odom1

/-- The fields of `novatel::GpsEphemeris` read by `EphemerisHandler`. `prn`
is an unsigned integer of the receiver protocol, modelled as `ℕ`. -/
structure GpsEphemeris where
  prn : ℕ
  health : ℚ
  semi_major_axis : ℚ
  anomoly_reference_time : ℚ
  eccentricity : ℚ
  omega : ℚ
  latitude_cosine : ℚ
  latitude_sine : ℚ
  orbit_radius_cosine : ℚ
  orbit_radius_sine : ℚ
  inclination_cosine : ℚ
  inclination_sine : ℚ
  inclination_angle : ℚ
  right_ascension : ℚ
  mean_motion_difference : ℚ
  inclination_angle_rate : ℚ
  right_ascension_rate : ℚ
  time_of_week : ℚ
  time_of_ephemeris : ℚ
  sv_clock_correction : ℚ
  group_delay_difference : ℚ
  clock_aligning_param_0 : ℚ
  clock_aligning_param_1 : ℚ
  clock_aligning_param_2 : ℚ

/-- The persistent `gps_msgs::Ephemeris cur_ephem_` message: one per-satellite
array per orbital/clock field, each modelled as `ℕ → ℚ`, plus the `gps_time`
stamp of the triggering update. -/
structure EphemerisTable where
  gps_time : ℚ
  health : ℕ → ℚ
  semimajor_axis : ℕ → ℚ
  mean_anomaly : ℕ → ℚ
  eccentricity : ℕ → ℚ
  perigee_arg : ℕ → ℚ
  cos_latitude : ℕ → ℚ
  sin_latitude : ℕ → ℚ
  cos_orbit_radius : ℕ → ℚ
  sin_orbit_radius : ℕ → ℚ
  cos_inclination : ℕ → ℚ
  sin_inclination : ℕ → ℚ
  inclination_angle : ℕ → ℚ
  right_ascension : ℕ → ℚ
  mean_motion_diff : ℕ → ℚ
  inclination_rate : ℕ → ℚ
  ascension_rate : ℕ → ℚ
  time_of_week : ℕ → ℚ
  reference_time : ℕ → ℚ
  clock_correction : ℕ → ℚ
  group_delay : ℕ → ℚ
  clock_aging_1 : ℕ → ℚ
  clock_aging_2 : ℕ → ℚ
  clock_aging_3 : ℕ → ℚ

/-- An all-zero ephemeris table (ROS message arrays are zero-initialized). -/
def EphemerisTable.init : EphemerisTable where
  gps_time := 0
  health := fun _ => 0
  semimajor_axis := fun _ => 0
  mean_anomaly := fun _ => 0
  eccentricity := fun _ => 0
  perigee_arg := fun _ => 0
  cos_latitude := fun _ => 0
  sin_latitude := fun _ => 0
  cos_orbit_radius := fun _ => 0
  sin_orbit_radius := fun _ => 0
  cos_inclination := fun _ => 0
  sin_inclination := fun _ => 0
  inclination_angle := fun _ => 0
  right_ascension := fun _ => 0
  mean_motion_diff := fun _ => 0
  inclination_rate := fun _ => 0
  ascension_rate := fun _ => 0
  time_of_week := fun _ => 0
  reference_time := fun _ => 0
  clock_correction := fun _ => 0
  group_delay := fun _ => 0
  clock_aging_1 := fun _ => 0
  clock_aging_2 := fun _ => 0
  clock_aging_3 := fun _ => 0

/-- Row index `uint8_t n = ephem.prn - 1` (novatel_node.cpp:291): unsigned arithmetic
truncated to 8 bits. For `prn ≥ 1` this is `(prn - 1) % 256`; for `prn = 0`
the wrap-around gives `255`. `(prn + 255) % 256` expresses both uniformly
over `ℕ`. -/
def ephemRowIndex (prn : ℕ) : ℕ := (prn + 255) % 256

/-- The handler `NovatelNode::EphemerisHandler` (novatel_node.cpp:285-317): stamps the
persistent table, then overwrites row `n = prn - 1` (as `uint8_t`) of every
field array, with no range check on `prn`, and publishes the whole table —
the returned value is the full post-update table. -/
def EphemerisHandler (cur_ephem : EphemerisTable) (ephem : GpsEphemeris)
    (timestamp : ℚ) : EphemerisTable :=
  let n : ℕ := ephemRowIndex ephem.prn
  { gps_time := timestamp
    health := Function.update cur_ephem.health n ephem.health
    semimajor_axis := Function.update cur_ephem.semimajor_axis n ephem.semi_major_axis
    mean_anomaly := Function.update cur_ephem.mean_anomaly n ephem.anomoly_reference_time
    eccentricity := Function.update cur_ephem.eccentricity n ephem.eccentricity
    perigee_arg := Function.update cur_ephem.perigee_arg n ephem.omega
    cos_latitude := Function.update cur_ephem.cos_latitude n ephem.latitude_cosine
    sin_latitude := Function.update cur_ephem.sin_latitude n ephem.latitude_sine
    cos_orbit_radius := Function.update cur_ephem.cos_orbit_radius n ephem.orbit_radius_cosine
    sin_orbit_radius := Function.update cur_ephem.sin_orbit_radius n ephem.orbit_radius_sine
    cos_inclination := Function.update cur_ephem.cos_inclination n ephem.inclination_cosine
    sin_inclination := Function.update cur_ephem.sin_inclination n ephem.inclination_sine
    inclination_angle := Function.update cur_ephem.inclination_angle n ephem.inclination_angle
    right_ascension := Function.update cur_ephem.right_ascension n ephem.right_ascension
    mean_motion_diff := Function.update cur_ephem.mean_motion_diff n ephem.mean_motion_difference
    inclination_rate := Function.update cur_ephem.inclination_rate n ephem.inclination_angle_rate
    ascension_rate := Function.update cur_ephem.ascension_rate n ephem.right_ascension_rate
    time_of_week := Function.update cur_ephem.time_of_week n ephem.time_of_week
    reference_time := Function.update cur_ephem.reference_time n ephem.time_of_ephemeris
    clock_correction := Function.update cur_ephem.clock_correction n ephem.sv_clock_correction
    group_delay := Function.update cur_ephem.group_delay n ephem.group_delay_difference
    clock_aging_1 := Function.update cur_ephem.clock_aging_1 n ephem.clock_aligning_param_0
    clock_aging_2 := Function.update cur_ephem.clock_aging_2 n ephem.clock_aligning_param_1
    clock_aging_3 := Function.update cur_ephem.clock_aging_3 n ephem.clock_aligning_param_2 }

/-- Row `m` of table `t'` holds exactly the same values as row `m` of `t`,
field array by field array. -/
def EphemerisTable.rowEq (t' t : EphemerisTable) (m : ℕ) : Prop :=
  t'.health m = t.health m ∧
  t'.semimajor_axis m = t.semimajor_axis m ∧
  t'.mean_anomaly m = t.mean_anomaly m ∧
  t'.eccentricity m = t.eccentricity m ∧
  t'.perigee_arg m = t.perigee_arg m ∧
  t'.cos_latitude m = t.cos_latitude m ∧
  t'.sin_latitude m = t.sin_latitude m ∧
  t'.cos_orbit_radius m = t.cos_orbit_radius m ∧
  t'.sin_orbit_radius m = t.sin_orbit_radius m ∧
  t'.cos_inclination m = t.cos_inclination m ∧
  t'.sin_inclination m = t.sin_inclination m ∧
  t'.inclination_angle m = t.inclination_angle m ∧
  t'.right_ascension m = t.right_ascension m ∧
  t'.mean_motion_diff m = t.mean_motion_diff m ∧
  t'.inclination_rate m = t.inclination_rate m ∧
  t'.ascension_rate m = t.ascension_rate m ∧
  t'.time_of_week m = t.time_of_week m ∧
  t'.reference_time m = t.reference_time m ∧
  t'.clock_correction m = t.clock_correction m ∧
  t'.group_delay m = t.group_delay m ∧
  t'.clock_aging_1 m = t.clock_aging_1 m ∧
  t'.clock_aging_2 m = t.clock_aging_2 m ∧
  t'.clock_aging_3 m = t.clock_aging_3 m

/-- Row `m` of table `t` holds exactly the fields of ephemeris record `e`,
under the field correspondence of `EphemerisHandler`. -/
def EphemerisTable.rowHolds (t : EphemerisTable) (e : GpsEphemeris) (m : ℕ) : Prop :=
  t.health m = e.health ∧
  t.semimajor_axis m = e.semi_major_axis ∧
  t.mean_anomaly m = e.anomoly_reference_time ∧
  t.eccentricity m = e.eccentricity ∧
  t.perigee_arg m = e.omega ∧
  t.cos_latitude m = e.latitude_cosine ∧
  t.sin_latitude m = e.latitude_sine ∧
  t.cos_orbit_radius m = e.orbit_radius_cosine ∧
  t.sin_orbit_radius m = e.orbit_radius_sine ∧
  t.cos_inclination m = e.inclination_cosine ∧
  t.sin_inclination m = e.inclination_sine ∧
  t.inclination_angle m = e.inclination_angle ∧
  t.right_ascension m = e.right_ascension ∧
  t.mean_motion_diff m = e.mean_motion_difference ∧
  t.inclination_rate m = e.inclination_angle_rate ∧
  t.ascension_rate m = e.right_ascension_rate ∧
  t.time_of_week m = e.time_of_week ∧
  t.reference_time m = e.time_of_ephemeris ∧
  t.clock_correction m = e.sv_clock_correction ∧
  t.group_delay m = e.group_delay_difference ∧
  t.clock_aging_1 m = e.clock_aligning_param_0 ∧
  t.clock_aging_2 m = e.clock_aligning_param_1 ∧
  t.clock_aging_3 m = e.clock_aligning_param_2

/-- Per-channel fields of `novatel::RangeData` read by `RangeHandler`. -/
structure RangeData where
  satellite_prn : ℚ
  pseudorange : ℚ
  pseudorange_standard_deviation : ℚ
  doppler : ℚ
  carrier_to_noise : ℚ
  accumulated_doppler : ℚ
  accumulated_doppler_std_deviation : ℚ
deriving DecidableEq, Repr

/-- One output channel of the published `gps_msgs::DualBandRange` L1 block. -/
structure RangeChannel where
  prn : ℚ
  psr : ℚ
  psr_std : ℚ
  doppler : ℚ
  noise : ℚ
  phase : ℚ
  phase_std : ℚ
deriving DecidableEq, Repr

/-- The per-channel assembly loop of `NovatelNode::RangeHandler`
(novatel_node.cpp:327-335): for each `n` below `MAX_CHAN` the output channel
`n` is built from input channel `n` alone; written as the pointwise map the
loop computes. -/
def RangeHandler (range_data : ℕ → RangeData) : ℕ → RangeChannel := fun n =>
  { prn := (range_data n).satellite_prn
    psr := (range_data n).pseudorange
    psr_std := (range_data n).pseudorange_standard_deviation
    doppler := (range_data n).doppler
    noise := (range_data n).carrier_to_noise
    phase := -(range_data n).accumulated_doppler
    phase_std := -(range_data n).accumulated_doppler_std_deviation }

/-! ## Sample inputs for closed witnesses and counterexamples -/

/-- A cached velocity at epoch week 100, ms 5000, with a plain `SINGLE` fix. -/
def vMatch : Velocity where
  header := ⟨100, 5000⟩
  position_type := SINGLE
  horizontal_speed := 2
  vertical_speed := 3
  track_over_ground := 7

/-- Same epoch as `vMatch` but with position type `NONE` (no fix). -/
def vNoFix : Velocity where
  header := ⟨100, 5000⟩
  position_type := NONE
  horizontal_speed := 2
  vertical_speed := 3
  track_over_ground := 7

/-- Same epoch as `vMatch` but standing still (`horizontal_speed = 0`). -/
def vZeroSpeed : Velocity where
  header := ⟨100, 5000⟩
  position_type := SINGLE
  horizontal_speed := 0
  vertical_speed := 0
  track_over_ground := 7

/-- A UTM position fix at epoch week 100, ms 5000, with the diagonal
std-devs of the spec example (0.1, 0.2, 0.3). -/
def pMatch : UtmPosition where
  header := ⟨100, 5000⟩
  position_type := SINGLE
  signals_used_mask := 1
  easting := 11
  northing := 12
  height := 13
  easting_standard_deviation := 1 / 10
  northing_standard_deviation := 2 / 10
  height_standard_deviation := 3 / 10

/-- Record `pMatch` one millisecond later: epoch week 100, ms 5001. -/
def pMismatch : UtmPosition :=
  { pMatch with header := ⟨100, 5001⟩ }

/-- A cached INS covariance record at epoch week 100, ms 5000, with a unit
attitude covariance (1.0 degrees² everywhere) and distinguishable position
and velocity blocks. -/
def covMatch : InsCovarianceShort where
  gps_week := 100
  gps_millisecs := 5000
  position_covariance := fun i => (i : ℚ) + 2
  attitude_covariance := fun _ => 1
  velocity_covariance := fun i => (i : ℚ) + 40

/-- An INS navigation solution at epoch week 100, ms 5000. -/
def pvaMatch : InsPositionVelocityAttitudeShort where
  gps_week := 100
  gps_millisecs := 5000
  latitude := 1
  longitude := 2
  height := 3
  roll := 0
  pitch := 0
  azimuth := 0
  north_velocity := 4
  east_velocity := 5
  up_velocity := 6
  status := 0

/-- Record `pvaMatch` one millisecond later: epoch week 100, ms 5001. -/
def pvaMismatch : InsPositionVelocityAttitudeShort :=
  { pvaMatch with gps_millisecs := 5001 }

/-- An ephemeris record for satellite prn 5 with all fields set to 1. -/
def eph5 : GpsEphemeris where
  prn := 5
  health := 1
  semi_major_axis := 1
  anomoly_reference_time := 1
  eccentricity := 1
  omega := 1
  latitude_cosine := 1
  latitude_sine := 1
  orbit_radius_cosine := 1
  orbit_radius_sine := 1
  inclination_cosine := 1
  inclination_sine := 1
  inclination_angle := 1
  right_ascension := 1
  mean_motion_difference := 1
  inclination_angle_rate := 1
  right_ascension_rate := 1
  time_of_week := 1
  time_of_ephemeris := 1
  sv_clock_correction := 1
  group_delay_difference := 1
  clock_aligning_param_0 := 1
  clock_aligning_param_1 := 1
  clock_aligning_param_2 := 1

/-- Record `eph5` with the out-of-range satellite id 0. -/
def ephPrn0 : GpsEphemeris :=
  { eph5 with prn := 0 }

/-! ## Claim theorems -/

/-- C5: for every UTM position fix, the emitted pose covariance has
entry 0 = easting σ², entry 7 = northing σ², entry 14 = height σ², and the
unobserved roll and pitch entries 21 and 28 hold the `DBL_MAX` sentinel,
which is not zero — in every branch of the handler. -/
theorem diagonal_covariance_entries (cosF sinF : ℚ → ℚ) (v : Velocity)
    (p : UtmPosition) :
    (BestUtmHandler cosF sinF v p).pose_covariance 0 =
      p.easting_standard_deviation * p.easting_standard_deviation ∧
    (BestUtmHandler cosF sinF v p).pose_covariance 7 =
      p.northing_standard_deviation * p.northing_standard_deviation ∧
    (BestUtmHandler cosF sinF v p).pose_covariance 14 =
      p.height_standard_deviation * p.height_standard_deviation ∧
    (BestUtmHandler cosF sinF v p).pose_covariance 21 = DBL_MAX ∧
    (BestUtmHandler cosF sinF v p).pose_covariance 28 = DBL_MAX ∧
    DBL_MAX ≠ 0 := by
  have hD : DBL_MAX ≠ 0 := by norm_num [DBL_MAX]
  unfold BestUtmHandler
  split
  · split
    · exact ⟨by norm_num [Function.update, Odom.init],
        by norm_num [Function.update, Odom.init],
        by norm_num [Function.update, Odom.init],
        by norm_num [Function.update, Odom.init],
        by norm_num [Function.update, Odom.init], hD⟩
    · exact ⟨by norm_num [Function.update, Odom.init],
        by norm_num [Function.update, Odom.init],
        by norm_num [Function.update, Odom.init],
        by norm_num [Function.update, Odom.init],
        by norm_num [Function.update, Odom.init], hD⟩
  · exact ⟨by norm_num [Function.update, Odom.init],
      by norm_num [Function.update, Odom.init],
      by norm_num [Function.update, Odom.init],
      by norm_num [Function.update, Odom.init],
      by norm_num [Function.update, Odom.init], hD⟩

/-- C1: for both primary handlers, the cached secondary record's contribution
reaches the output exactly when the cached record's `gps_week` and
`gps_millisecs` both equal the primary's — component-wise equality, no
tolerance. Observed through a copied field that is distinguishable from the
zero-initialized default: the fused `twist.linear.z` carries the cached
velocity's `vertical_speed`, and the fused pose covariance entry 0 carries the
cached INS record's `position_covariance[0]`. -/
theorem epoch_match_gates_fusion (cosF sinF : ℚ → ℚ) (v : Velocity)
    (p : UtmPosition) (convert : ℚ → ℚ → ℚ × ℚ) (c : InsCovarianceShort)
    (pva : InsPositionVelocityAttitudeShort)
    (hv : v.vertical_speed ≠ 0) (hc : c.position_covariance 0 ≠ 0) :
    ((BestUtmHandler cosF sinF v p).twist_linear_z = v.vertical_speed ↔
      v.header.gps_week = p.header.gps_week ∧
      v.header.gps_millisecs = p.header.gps_millisecs) ∧
    ((InsPvaHandler convert c pva).pose_covariance 0 = c.position_covariance 0 ↔
      c.gps_week = pva.gps_week ∧ c.gps_millisecs = pva.gps_millisecs) := by
  constructor
  · unfold BestUtmHandler
    split
    · rename_i hmatch
      split
      · simp [hmatch]
      · simp [hmatch]
    · rename_i hmatch
      simp only [Odom.init]
      exact ⟨fun h0 => absurd h0.symm hv, fun hab => absurd hab hmatch⟩
  · unfold InsPvaHandler
    split
    · rename_i hmatch
      constructor
      · intro _; exact hmatch
      · intro _; norm_num [Function.update]
    · rename_i hmatch
      simp only [Odom.init]
      exact ⟨fun h0 => absurd h0.symm hc, fun hab => absurd hab hmatch⟩

/-- Witness for C1: at the matching epoch {week 100, ms 5000} both fusion
paths copy the cached record's field; with the primary one millisecond later
(ms 5001) the velocity contribution is absent. -/
theorem epoch_match_gates_fusion_applied :
    (BestUtmHandler (fun _ => 1) (fun _ => 0) vMatch pMatch).twist_linear_z = 3 ∧
    (BestUtmHandler (fun _ => 1) (fun _ => 0) vMatch pMismatch).twist_linear_z ≠ 3 ∧
    (InsPvaHandler (fun _ _ => (0, 0)) covMatch pvaMatch).pose_covariance 0 = 2 := by
  have h1 := epoch_match_gates_fusion (fun _ => 1) (fun _ => 0) vMatch pMatch
    (fun _ _ => (0, 0)) covMatch pvaMatch
    (by norm_num [vMatch]) (by norm_num [covMatch])
  have h2 := epoch_match_gates_fusion (fun _ => 1) (fun _ => 0) vMatch pMismatch
    (fun _ _ => (0, 0)) covMatch pvaMatch
    (by norm_num [vMatch]) (by norm_num [covMatch])
  refine ⟨?_, ?_, ?_⟩
  · have h := h1.1.mpr ⟨rfl, rfl⟩
    simpa [vMatch] using h
  · intro hz
    have h := h2.1.mp (by simpa [vMatch] using hz)
    have hms := h.2
    norm_num [vMatch, pMismatch, pMatch] at hms
  · have h := h1.2.mpr ⟨rfl, rfl⟩
    simpa [covMatch] using h

/-- Counterexample for C2: with the cached velocity at {week 100, ms 5000}
and the fix at {week 100, ms 5001} (no epoch match), the published pose
covariance entry 35 and twist covariance entries 0 and 7 are 0, not the
`DBL_MAX` unknown-variance sentinel the claim requires. -/
theorem unmatched_epoch_covariance_zero_cx :
    (BestUtmHandler (fun _ => 1) (fun _ => 0) vMatch pMismatch).pose_covariance 35 = 0 ∧
    (BestUtmHandler (fun _ => 1) (fun _ => 0) vMatch pMismatch).twist_covariance 0 = 0 ∧
    (BestUtmHandler (fun _ => 1) (fun _ => 0) vMatch pMismatch).twist_covariance 7 = 0 ∧
    (0 : ℚ) ≠ DBL_MAX := by
  have hg : ¬(vMatch.header.gps_week = pMismatch.header.gps_week ∧
      vMatch.header.gps_millisecs = pMismatch.header.gps_millisecs) := by decide
  unfold BestUtmHandler
  rw [if_neg hg]
  refine ⟨?_, ?_, ?_, by norm_num [DBL_MAX]⟩ <;>
    norm_num [Function.update, Odom.init]

/-- C2 amended: when the cached velocity's epoch does not match the fix's,
the fusion block is skipped and pose covariance entry 35 and twist covariance
entries 0 and 7 keep the message's zero initialization — indistinguishable
from a populated-but-zero value; only the roll and pitch entries 21 and 28
carry the `DBL_MAX` sentinel. -/
theorem unmatched_epoch_leaves_secondary_entries_zero (cosF sinF : ℚ → ℚ)
    (v : Velocity) (p : UtmPosition)
    (h : ¬(v.header.gps_week = p.header.gps_week ∧
           v.header.gps_millisecs = p.header.gps_millisecs)) :
    (BestUtmHandler cosF sinF v p).pose_covariance 35 = 0 ∧
    (BestUtmHandler cosF sinF v p).twist_covariance 0 = 0 ∧
    (BestUtmHandler cosF sinF v p).twist_covariance 7 = 0 ∧
    (BestUtmHandler cosF sinF v p).pose_covariance 21 = DBL_MAX ∧
    (BestUtmHandler cosF sinF v p).pose_covariance 28 = DBL_MAX := by
  unfold BestUtmHandler
  rw [if_neg h]
  refine ⟨?_, ?_, ?_, ?_, ?_⟩ <;> norm_num [Function.update, Odom.init]

/-- Witness for C2 amended: concrete mismatching epochs
({week 100, ms 5000} against {week 100, ms 5001}). -/
theorem unmatched_epoch_leaves_secondary_entries_zero_applied :
    (BestUtmHandler (fun _ => 0) (fun _ => 1) vMatch pMismatch).pose_covariance 35 = 0 ∧
    (BestUtmHandler (fun _ => 0) (fun _ => 1) vMatch pMismatch).pose_covariance 21 = DBL_MAX :=
  ⟨(unmatched_epoch_leaves_secondary_entries_zero (fun _ => 0) (fun _ => 1)
      vMatch pMismatch (by decide)).1,
   (unmatched_epoch_leaves_secondary_entries_zero (fun _ => 0) (fun _ => 1)
      vMatch pMismatch (by decide)).2.2.2.1⟩

/-- C3 (code bug): with a cached velocity whose epoch matches the fix, whose
position type is above `NONE`, and whose `horizontal_speed` is 0, the handler
reaches the expression `sigma_v / horizontal_speed` — the guard
`bestUtmReachesSpeedDivision` holds, the divisor is exactly 0, and the
dividend `sigma_v` is non-zero, so the source performs an unguarded division
by zero (IEEE-754: the published heading variance becomes infinite). -/
theorem zero_speed_division_reached :
    bestUtmReachesSpeedDivision vZeroSpeed pMatch = true ∧
    vZeroSpeed.horizontal_speed = 0 ∧
    sigma_v ≠ 0 :=
  ⟨by decide, by norm_num [vZeroSpeed], by norm_num [sigma_v]⟩

/-- C10: under a matched epoch, the fused uncertainty is gated on fix
quality: position type above `NONE` yields pose covariance 35 =
(σᵥ / horizontal speed)², twist covariance 0 and 7 = σᵥ² with σᵥ = 0.05;
position type `NONE` yields the `DBL_MAX` sentinel in all three entries; the
twist linear velocity is populated from the matched velocity either way. -/
theorem velocity_quality_gate (cosF sinF : ℚ → ℚ) (v : Velocity)
    (p : UtmPosition)
    (hw : v.header.gps_week = p.header.gps_week)
    (hm : v.header.gps_millisecs = p.header.gps_millisecs) :
    sigma_v = 1 / 20 ∧
    (NONE < v.position_type →
      (BestUtmHandler cosF sinF v p).pose_covariance 35 =
        (sigma_v / v.horizontal_speed) * (sigma_v / v.horizontal_speed) ∧
      (BestUtmHandler cosF sinF v p).twist_covariance 0 = sigma_v * sigma_v ∧
      (BestUtmHandler cosF sinF v p).twist_covariance 7 = sigma_v * sigma_v) ∧
    (v.position_type = NONE →
      (BestUtmHandler cosF sinF v p).pose_covariance 35 = DBL_MAX ∧
      (BestUtmHandler cosF sinF v p).twist_covariance 0 = DBL_MAX ∧
      (BestUtmHandler cosF sinF v p).twist_covariance 7 = DBL_MAX) ∧
    ((BestUtmHandler cosF sinF v p).twist_linear_x =
        v.horizontal_speed * cosF v.track_over_ground ∧
     (BestUtmHandler cosF sinF v p).twist_linear_y =
        v.horizontal_speed * sinF v.track_over_ground ∧
     (BestUtmHandler cosF sinF v p).twist_linear_z = v.vertical_speed) := by
  refine ⟨by norm_num [sigma_v], ?_, ?_, ?_⟩
  · intro hpt
    unfold BestUtmHandler
    rw [if_pos ⟨hw, hm⟩, if_pos hpt]
    refine ⟨?_, ?_, ?_⟩ <;> norm_num [Function.update, Odom.init]
  · intro hpt
    unfold BestUtmHandler
    rw [if_pos ⟨hw, hm⟩, if_neg (by simp [hpt, NONE])]
    refine ⟨?_, ?_, ?_⟩ <;> norm_num [Function.update, Odom.init]
  · unfold BestUtmHandler
    rw [if_pos ⟨hw, hm⟩]
    split <;> exact ⟨rfl, rfl, rfl⟩

/-- Witness for C10: with the fixed velocity (`SINGLE` type, speed 2) the
entries are (0.05/2)² = 1/1600 and 0.05² = 1/400; with a `NONE`-type velocity
at the same epoch, entry 35 holds the sentinel. -/
theorem velocity_quality_gate_applied :
    (BestUtmHandler (fun _ => 1) (fun _ => 0) vMatch pMatch).pose_covariance 35 = 1 / 1600 ∧
    (BestUtmHandler (fun _ => 1) (fun _ => 0) vMatch pMatch).twist_covariance 0 = 1 / 400 ∧
    (BestUtmHandler (fun _ => 1) (fun _ => 0) vNoFix pMatch).pose_covariance 35 = DBL_MAX := by
  have h1 := velocity_quality_gate (fun _ => 1) (fun _ => 0) vMatch pMatch rfl rfl
  have h2 := velocity_quality_gate (fun _ => 1) (fun _ => 0) vNoFix pMatch rfl rfl
  refine ⟨?_, ?_, ?_⟩
  · have h := (h1.2.1 (by decide)).1
    rw [h]; norm_num [vMatch, sigma_v]
  · have h := (h1.2.1 (by decide)).2.1
    rw [h]; norm_num [sigma_v]
  · exact (h2.2.2.1 rfl).1

/-- Counterexample for C4: the numeric code 99 is not in the recognized
position-type enumeration, yet the classifier does not fail — the final
`else` of the source maps it silently to the baseline `Fix` tier. -/
theorem unrecognized_code_maps_to_fix_cx :
    99 ∉ recognizedPositionTypes ∧ bestUtmStatus 99 = FixStatus.fix := by
  decide

/-- C4 amended: the classification is a total function on numeric codes:
`NONE` maps to the no-fix tier, the five SBAS codes to the SBAS tier, the
differential/RTK/INS-aided set to the GBAS tier, and every other code —
recognized or not — falls through the final `else` to the baseline `Fix`
tier; no input ever fails. -/
theorem bestUtmStatus_total_classification (c : ℕ) :
    (c = NONE → bestUtmStatus c = .no_fix) ∧
    (c = WAAS ∨ c = OMNISTAR ∨ c = OMNISTAR_HP ∨ c = OMNISTAR_XP ∨
       c = CDGPS → bestUtmStatus c = .sbas_fix) ∧
    (c = PSRDIFF ∨ c = NARROW_FLOAT ∨ c = WIDE_INT ∨ c = NARROW_INT ∨
       c = RTK_DIRECT_INS ∨ c = INS_PSRDIFF ∨ c = INS_RTKFLOAT ∨
       c = INS_RTKFIXED → bestUtmStatus c = .gbas_fix) ∧
    (c ≠ NONE →
      ¬(c = WAAS ∨ c = OMNISTAR ∨ c = OMNISTAR_HP ∨ c = OMNISTAR_XP ∨
        c = CDGPS) →
      ¬(c = PSRDIFF ∨ c = NARROW_FLOAT ∨ c = WIDE_INT ∨ c = NARROW_INT ∨
        c = RTK_DIRECT_INS ∨ c = INS_PSRDIFF ∨ c = INS_RTKFLOAT ∨
        c = INS_RTKFIXED) →
      bestUtmStatus c = .fix) := by
  refine ⟨?_, ?_, ?_, ?_⟩
  · rintro rfl; decide
  · rintro (rfl | rfl | rfl | rfl | rfl) <;> decide
  · rintro (rfl | rfl | rfl | rfl | rfl | rfl | rfl | rfl) <;> decide
  · intro h1 h2 h3
    have h3x : ¬(c = PSRDIFF ∨ c = NARROW_FLOAT ∨ c = WIDE_INT ∨
        c = WIDE_INT ∨ c = NARROW_INT ∨ c = RTK_DIRECT_INS ∨
        c = INS_PSRDIFF ∨ c = INS_RTKFLOAT ∨ c = INS_RTKFIXED) := by tauto
    unfold bestUtmStatus
    rw [if_neg h1, if_neg h2, if_neg h3x]

/-- Witness for C4 amended: one code of each tier, plus the unrecognized
code 99 landing in the baseline tier. -/
theorem bestUtmStatus_total_classification_applied :
    bestUtmStatus NONE = .no_fix ∧ bestUtmStatus WAAS = .sbas_fix ∧
    bestUtmStatus NARROW_INT = .gbas_fix ∧ bestUtmStatus SINGLE = .fix ∧
    bestUtmStatus 99 = .fix :=
  ⟨(bestUtmStatus_total_classification NONE).1 rfl,
   (bestUtmStatus_total_classification WAAS).2.1 (Or.inl rfl),
   (bestUtmStatus_total_classification NARROW_INT).2.2.1 (by decide),
   (bestUtmStatus_total_classification SINGLE).2.2.2
     (by decide) (by decide) (by decide),
   (bestUtmStatus_total_classification 99).2.2.2
     (by decide) (by decide) (by decide)⟩

/-- C6: on an epoch match, each of the nine attitude covariance entries
(receiver units: degrees²) is multiplied by (π/180)² exactly once on its way
into the rotation quadrant of the pose covariance, while the position block
(pose entries 0,1,2,6,7,8,12,13,14) and the velocity block (the same twist
entries) are copied without scaling. -/
theorem ins_covariance_unit_conversion (convert : ℚ → ℚ → ℚ × ℚ)
    (c : InsCovarianceShort) (pva : InsPositionVelocityAttitudeShort)
    (hw : c.gps_week = pva.gps_week)
    (hm : c.gps_millisecs = pva.gps_millisecs) :
    ((InsPvaHandler convert c pva).pose_covariance 21 =
       c.attitude_covariance 0 * ((m_pi / 180) * (m_pi / 180)) ∧
     (InsPvaHandler convert c pva).pose_covariance 22 =
       c.attitude_covariance 1 * ((m_pi / 180) * (m_pi / 180)) ∧
     (InsPvaHandler convert c pva).pose_covariance 23 =
       c.attitude_covariance 2 * ((m_pi / 180) * (m_pi / 180)) ∧
     (InsPvaHandler convert c pva).pose_covariance 27 =
       c.attitude_covariance 3 * ((m_pi / 180) * (m_pi / 180)) ∧
     (InsPvaHandler convert c pva).pose_covariance 28 =
       c.attitude_covariance 4 * ((m_pi / 180) * (m_pi / 180)) ∧
     (InsPvaHandler convert c pva).pose_covariance 29 =
       c.attitude_covariance 5 * ((m_pi / 180) * (m_pi / 180)) ∧
     (InsPvaHandler convert c pva).pose_covariance 33 =
       c.attitude_covariance 6 * ((m_pi / 180) * (m_pi / 180)) ∧
     (InsPvaHandler convert c pva).pose_covariance 34 =
       c.attitude_covariance 7 * ((m_pi / 180) * (m_pi / 180)) ∧
     (InsPvaHandler convert c pva).pose_covariance 35 =
       c.attitude_covariance 8 * ((m_pi / 180) * (m_pi / 180))) ∧
    ((InsPvaHandler convert c pva).pose_covariance 0 = c.position_covariance 0 ∧
     (InsPvaHandler convert c pva).pose_covariance 1 = c.position_covariance 1 ∧
     (InsPvaHandler convert c pva).pose_covariance 2 = c.position_covariance 2 ∧
     (InsPvaHandler convert c pva).pose_covariance 6 = c.position_covariance 3 ∧
     (InsPvaHandler convert c pva).pose_covariance 7 = c.position_covariance 4 ∧
     (InsPvaHandler convert c pva).pose_covariance 8 = c.position_covariance 5 ∧
     (InsPvaHandler convert c pva).pose_covariance 12 = c.position_covariance 6 ∧
     (InsPvaHandler convert c pva).pose_covariance 13 = c.position_covariance 7 ∧
     (InsPvaHandler convert c pva).pose_covariance 14 = c.position_covariance 8) ∧
    ((InsPvaHandler convert c pva).twist_covariance 0 = c.velocity_covariance 0 ∧
     (InsPvaHandler convert c pva).twist_covariance 1 = c.velocity_covariance 1 ∧
     (InsPvaHandler convert c pva).twist_covariance 2 = c.velocity_covariance 2 ∧
     (InsPvaHandler convert c pva).twist_covariance 6 = c.velocity_covariance 3 ∧
     (InsPvaHandler convert c pva).twist_covariance 7 = c.velocity_covariance 4 ∧
     (InsPvaHandler convert c pva).twist_covariance 8 = c.velocity_covariance 5 ∧
     (InsPvaHandler convert c pva).twist_covariance 12 = c.velocity_covariance 6 ∧
     (InsPvaHandler convert c pva).twist_covariance 13 = c.velocity_covariance 7 ∧
     (InsPvaHandler convert c pva).twist_covariance 14 = c.velocity_covariance 8) := by
  unfold InsPvaHandler
  rw [if_pos ⟨hw, hm⟩]
  refine ⟨⟨?_, ?_, ?_, ?_, ?_, ?_, ?_, ?_, ?_⟩,
          ⟨?_, ?_, ?_, ?_, ?_, ?_, ?_, ?_, ?_⟩,
          ⟨?_, ?_, ?_, ?_, ?_, ?_, ?_, ?_, ?_⟩⟩ <;>
    norm_num [Function.update, degrees_square_to_radians_square,
      degrees_to_radians]

/-- Witness for C6: with a matched covariance record whose attitude diagonal
is 1.0 degrees², the published rotation variance is exactly (π/180)², and the
velocity block entry 0 (value 40) arrives unscaled. -/
theorem ins_covariance_unit_conversion_applied :
    (InsPvaHandler (fun _ _ => (0, 0)) covMatch pvaMatch).pose_covariance 21 =
      (m_pi / 180) * (m_pi / 180) ∧
    (InsPvaHandler (fun _ _ => (0, 0)) covMatch pvaMatch).pose_covariance 0 = 2 ∧
    (InsPvaHandler (fun _ _ => (0, 0)) covMatch pvaMatch).twist_covariance 0 = 40 := by
  have h := ins_covariance_unit_conversion (fun _ _ => (0, 0)) covMatch pvaMatch
    rfl rfl
  refine ⟨?_, ?_, ?_⟩
  · have hq := h.1.1
    rw [hq]; norm_num [covMatch]
  · have hq := h.2.1.1
    rw [hq]; norm_num [covMatch]
  · have hq := h.2.2.1
    rw [hq]; norm_num [covMatch]

/-- Identity `(prn + 255) % 256 = prn - 1` whenever `prn` lies in `[1, 256]` — the
`uint8_t` row index of `EphemerisHandler` is the plain zero-based satellite
row for every in-range satellite id. -/
lemma ephemRowIndex_in_range {prn : ℕ} (h1 : 1 ≤ prn) (h2 : prn ≤ 256) :
    ephemRowIndex prn = prn - 1 := by
  unfold ephemRowIndex
  omega

/-- C7: an in-range ephemeris update for satellite id `prn ∈ [1, 32]` writes
only row `prn - 1`: every field array at every other row is identical to its
pre-update value, row `prn - 1` holds exactly the record's fields, and the
returned (published) value is the whole post-update table. -/
theorem ephemeris_update_frame (t : EphemerisTable) (e : GpsEphemeris)
    (ts : ℚ) (h1 : 1 ≤ e.prn) (h2 : e.prn ≤ 32) :
    (∀ m, m ≠ e.prn - 1 →
      EphemerisTable.rowEq (EphemerisHandler t e ts) t m) ∧
    EphemerisTable.rowHolds (EphemerisHandler t e ts) e (e.prn - 1) := by
  have hidx : ephemRowIndex e.prn = e.prn - 1 :=
    ephemRowIndex_in_range h1 (by omega)
  constructor
  · intro m hm
    unfold EphemerisHandler EphemerisTable.rowEq
    refine ⟨?_, ?_, ?_, ?_, ?_, ?_, ?_, ?_, ?_, ?_, ?_, ?_, ?_, ?_, ?_, ?_,
      ?_, ?_, ?_, ?_, ?_, ?_, ?_⟩ <;>
      simp [Function.update_apply, hidx, hm]
  · unfold EphemerisHandler EphemerisTable.rowHolds
    refine ⟨?_, ?_, ?_, ?_, ?_, ?_, ?_, ?_, ?_, ?_, ?_, ?_, ?_, ?_, ?_, ?_,
      ?_, ?_, ?_, ?_, ?_, ?_, ?_⟩ <;>
      simp [Function.update_apply, hidx]

/-- Witness for C7: updating satellite id 5 on the all-zero table leaves row
9 untouched and fills row 4 with the record's fields. -/
theorem ephemeris_update_frame_applied :
    EphemerisTable.rowEq (EphemerisHandler EphemerisTable.init eph5 0)
      EphemerisTable.init 9 ∧
    EphemerisTable.rowHolds (EphemerisHandler EphemerisTable.init eph5 0)
      eph5 4 := by
  have h := ephemeris_update_frame EphemerisTable.init eph5 0
    (by decide) (by decide)
  exact ⟨h.1 9 (by decide), h.2⟩

/-- C8 (code bug): the source checks no satellite id range. For the
out-of-range id 0 the `uint8_t` index `prn - 1` wraps to 255, and the update
goes through: row 255 of the table — far beyond the 32-row capacity of the
message arrays, an out-of-bounds write in the C++ — receives the record's
health field instead of the operation failing without a write. -/
theorem ephemeris_prn_zero_out_of_range_write :
    ephPrn0.prn = 0 ∧
    ephemRowIndex ephPrn0.prn = 255 ∧
    32 ≤ 255 ∧
    (EphemerisHandler EphemerisTable.init ephPrn0 0).health 255 = 1 ∧
    EphemerisTable.init.health 255 = 0 := by
  refine ⟨by decide, by decide, by decide, ?_, rfl⟩
  norm_num [EphemerisHandler, ephPrn0, eph5, ephemRowIndex, Function.update,
    EphemerisTable.init]

/-- C9: each output range channel `n` is assembled from input channel `n`
alone — a positional pass-through (no reorder, drop, or duplication): prn,
pseudorange, its std-dev, doppler and carrier-to-noise are copied unchanged,
and exactly the accumulated carrier phase and its std-dev are negated. -/
theorem range_channel_passthrough (range_data : ℕ → RangeData) (n : ℕ) :
    (RangeHandler range_data n).prn = (range_data n).satellite_prn ∧
    (RangeHandler range_data n).psr = (range_data n).pseudorange ∧
    (RangeHandler range_data n).psr_std =
      (range_data n).pseudorange_standard_deviation ∧
    (RangeHandler range_data n).doppler = (range_data n).doppler ∧
    (RangeHandler range_data n).noise = (range_data n).carrier_to_noise ∧
    (RangeHandler range_data n).phase = -(range_data n).accumulated_doppler ∧
    (RangeHandler range_data n).phase_std =
      -(range_data n).accumulated_doppler_std_deviation :=
  ⟨rfl, rfl, rfl, rfl, rfl, rfl, rfl⟩

end NovatelROS
